import Mathlib

/-!
# Verification of the CryptoRiskGuard risk-scoring core

Shallow embedding, in Lean 4, of the numeric risk-scoring core of the
`openserv-ha` repository:

* the multi-source aggregation engine
  (`AnalysisAgent.calculateComprehensiveRisk`, `src/agents/analysis`),
* the blockchain scorer (`calculateBlockchainRiskScore` and the risk-level
  ternary of the `assessBlockchainRisk` capability, `blockchain-agent.ts`),
* the market scorer (`calculateMarketRiskAssessment`, `market-agent`),
* the DEX scorer (`calculateDexRiskAssessment`, `dexscreener-agent`),
* the social scorer (`calculateTwitterRiskAssessment`, `social-agent.ts`).

JavaScript numbers are modelled as exact rationals (`ℚ`), `Math.round` as
`jsRound` (floor of `x + 1/2`, which matches JS round-half-up semantics),
`Math.min`/`Math.max` as `min`/`max` on `ℚ`.  Fields of the TypeScript
records that are pure I/O plumbing (identifiers, timestamps, URLs, report
markdown) are not part of the embedded core; every numeric field and every
factor-list computation is carried over.  Strings that the source builds by
interpolating numbers are rendered with `toString`; no theorem below
depends on the exact rendering of a number inside a message string.
-/

/-- JavaScript `Math.round`: round half toward positive infinity. -/
def jsRound (q : ℚ) : ℤ := ⌊q + 1/2⌋

/-- The three-valued risk level used throughout the system. -/
inductive RiskLevel where
  | Low
  | Medium
  | High
  deriving DecidableEq, Repr

/-! ## Aggregation engine (`AnalysisAgent.calculateComprehensiveRisk`)

Input records mirror the TypeScript interfaces `BlockchainRiskData`,
`SocialRiskData`, `MarketRiskData` and `DexRiskData` (numeric and
factor-list fields). -/

/-- `BlockchainRiskData` as consumed by the aggregation engine. -/
structure BlockchainRiskData where
  riskScore : ℚ
  riskLevel : RiskLevel
  riskFactors : List String
  deriving Repr, DecidableEq

/-- `SocialRiskData` as consumed by the aggregation engine. -/
structure SocialRiskData where
  sentimentScore : ℚ
  riskLevel : RiskLevel
  riskFactors : List String
  positiveFactors : List String
  deriving Repr, DecidableEq

/-- `MarketRiskData` as consumed by the aggregation engine. -/
structure MarketRiskData where
  riskScore : ℚ
  riskLevel : RiskLevel
  riskFactors : List String
  positiveFactors : List String
  deriving Repr, DecidableEq

/-- `DexRiskData` as consumed by the aggregation engine. -/
structure DexRiskData where
  dex_risk_score : ℚ
  dex_risk_level : RiskLevel
  red_flags : List String
  positive_indicators : List String
  deriving Repr, DecidableEq

/-- The `riskBreakdown` record: the source initializes all four categories
to `0` and overwrites only the ones whose data is present. -/
structure RiskBreakdown where
  blockchain : ℚ
  social : ℚ
  market : ℚ
  dex : ℚ
  deriving Repr, DecidableEq

/-- One of the optional per-category detail components
(`blockchainRisk` / `socialRisk` / `marketRisk` / `dexRisk`). -/
structure RiskComponent where
  score : ℚ
  level : RiskLevel
  keyIssues : List String
  positiveFactors : List String
  deriving Repr, DecidableEq

/-- `ComprehensiveRiskAssessment` (numeric and factor fields). -/
structure ComprehensiveRiskAssessment where
  overallRiskScore : ℤ
  overallRiskLevel : RiskLevel
  riskBreakdown : RiskBreakdown
  riskFactors : List String
  positiveFactors : List String
  blockchainRisk : Option RiskComponent
  socialRisk : Option RiskComponent
  marketRisk : Option RiskComponent
  dexRisk : Option RiskComponent
  deriving Repr, DecidableEq

/-- The aggregation engine's normalization of a social sentiment score to
the 0-100 risk scale: `(1 - (sentimentScore + 1) / 2) * 100`. -/
def normalizedSocialScore (s : ℚ) : ℚ := (1 - (s + 1) / 2) * 100

/-- The overall risk-level bucketing of the aggregation engine:
default `Medium`, `< 40` gives `Low`, `> 70` gives `High`. -/
def overallRiskLevelOf (s : ℤ) : RiskLevel :=
  if s < 40 then .Low else if s > 70 then .High else .Medium

/-- `AnalysisAgent.calculateComprehensiveRisk`: renormalized weighted mean
of whichever of the four signals are present (weights 0.35 / 0.2 / 0.25 /
0.2), with `50` as the default when none is present, plus the factor
compilation (top 3 blockchain factors, top 2 of each of the others). -/
def calculateComprehensiveRisk
    (blockchainData : Option BlockchainRiskData)
    (socialData : Option SocialRiskData)
    (marketData : Option MarketRiskData)
    (dexData : Option DexRiskData) : ComprehensiveRiskAssessment :=
  let riskBreakdown : RiskBreakdown :=
    { blockchain := match blockchainData with
        | some b => b.riskScore
        | none => 0
      social := match socialData with
        | some s => normalizedSocialScore s.sentimentScore
        | none => 0
      market := match marketData with
        | some m => m.riskScore
        | none => 0
      dex := match dexData with
        | some d => d.dex_risk_score
        | none => 0 }
  let weightedScore : ℚ :=
    (match blockchainData with
      | some b => b.riskScore * (35/100)
      | none => 0) +
    (match socialData with
      | some s => normalizedSocialScore s.sentimentScore * (2/10)
      | none => 0) +
    (match marketData with
      | some m => m.riskScore * (25/100)
      | none => 0) +
    (match dexData with
      | some d => d.dex_risk_score * (2/10)
      | none => 0)
  let totalWeight : ℚ :=
    (if blockchainData.isSome then 35/100 else 0) +
    (if socialData.isSome then 2/10 else 0) +
    (if marketData.isSome then 25/100 else 0) +
    (if dexData.isSome then 2/10 else 0)
  let overallRiskScore : ℤ :=
    if totalWeight > 0 then jsRound (weightedScore / totalWeight) else 50
  let riskFactors : List String :=
    (match blockchainData with
      | some b => (b.riskFactors.take 3).map (fun f => "[Blockchain] " ++ f)
      | none => []) ++
    (match socialData with
      | some s => (s.riskFactors.take 2).map (fun f => "[Social] " ++ f)
      | none => []) ++
    (match marketData with
      | some m => (m.riskFactors.take 2).map (fun f => "[Market] " ++ f)
      | none => []) ++
    (match dexData with
      | some d => (d.red_flags.take 2).map (fun f => "[DEX] " ++ f)
      | none => [])
  let positiveFactors : List String :=
    (match socialData with
      | some s => (s.positiveFactors.take 2).map (fun f => "[Social] " ++ f)
      | none => []) ++
    (match marketData with
      | some m => (m.positiveFactors.take 2).map (fun f => "[Market] " ++ f)
      | none => []) ++
    (match dexData with
      | some d => (d.positive_indicators.take 2).map (fun f => "[DEX] " ++ f)
      | none => [])
  { overallRiskScore := overallRiskScore
    overallRiskLevel := overallRiskLevelOf overallRiskScore
    riskBreakdown := riskBreakdown
    riskFactors := riskFactors
    positiveFactors := positiveFactors
    blockchainRisk := match blockchainData with
      | some b => some
          { score := b.riskScore
            level := b.riskLevel
            keyIssues := b.riskFactors.take 3
            positiveFactors := [] }
      | none => none
    socialRisk := match socialData with
      | some s => some
          { score := normalizedSocialScore s.sentimentScore
            level := s.riskLevel
            keyIssues := s.riskFactors.take 3
            positiveFactors := s.positiveFactors.take 3 }
      | none => none
    marketRisk := match marketData with
      | some m => some
          { score := m.riskScore
            level := m.riskLevel
            keyIssues := m.riskFactors.take 3
            positiveFactors := m.positiveFactors.take 3 }
      | none => none
    dexRisk := match dexData with
      | some d => some
          { score := d.dex_risk_score
            level := d.dex_risk_level
            keyIssues := d.red_flags.take 3
            positiveFactors := d.positive_indicators.take 3 }
      | none => none }

/-- The spec-side numerator of the renormalized weighted mean: the sum of
`weight[c] * score[c]` over the present categories only. -/
def aggNumerator
    (blockchainData : Option BlockchainRiskData)
    (socialData : Option SocialRiskData)
    (marketData : Option MarketRiskData)
    (dexData : Option DexRiskData) : ℚ :=
  (match blockchainData with
    | some b => b.riskScore * (35/100)
    | none => 0) +
  (match socialData with
    | some s => normalizedSocialScore s.sentimentScore * (2/10)
    | none => 0) +
  (match marketData with
    | some m => m.riskScore * (25/100)
    | none => 0) +
  (match dexData with
    | some d => d.dex_risk_score * (2/10)
    | none => 0)

/-- The spec-side denominator of the renormalized weighted mean: the sum of
the fixed weights over the present categories only. -/
def aggDenominator
    (blockchainData : Option BlockchainRiskData)
    (socialData : Option SocialRiskData)
    (marketData : Option MarketRiskData)
    (dexData : Option DexRiskData) : ℚ :=
  (if blockchainData.isSome then 35/100 else 0) +
  (if socialData.isSome then 2/10 else 0) +
  (if marketData.isSome then 25/100 else 0) +
  (if dexData.isSome then 2/10 else 0)

/-! ## Blockchain scorer (`blockchain-agent.ts`)

`calculateBlockchainRiskScore` takes the verification flag, contract info
(proxy-implementation presence, creation timestamp), token info
(name/symbol presence), the holder distribution, the transaction history
and the detected security patterns.  The transaction history does not
enter the score and is dropped from the embedding; the contract age in
days (derived in the source from `createdTimestamp` and the current time)
is taken as the input, `none` standing for an absent `createdTimestamp`. -/

/-- One entry of the token holder distribution. -/
structure TokenHolder where
  percentage : ℚ
  deriving Repr, DecidableEq

/-- Severity tag of a detected security pattern. -/
inductive Severity where
  | High
  | Medium
  | Low
  deriving DecidableEq, Repr

/-- A detected security pattern (only its severity enters the score). -/
structure SecurityPattern where
  severity : Severity
  deriving Repr, DecidableEq

/-- Contract metadata used by the blockchain scorer: `hasImplementation`
is the truthiness of `contractInfo.implementation` (proxy pattern),
`ageInDays` is the age derived from `createdTimestamp` (`none` when the
timestamp is absent). -/
structure ContractInfo where
  hasImplementation : Bool
  ageInDays : Option ℤ
  deriving Repr, DecidableEq

/-- Token metadata used by the blockchain scorer: truthiness of
`tokenInfo.name` and `tokenInfo.symbol`. -/
structure TokenInfo where
  hasName : Bool
  hasSymbol : Bool
  deriving Repr, DecidableEq

/-- Descending insertion of a percentage into a sorted list (used to model
the source's descending sort of holders by percentage). -/
def insertDesc (x : ℚ) : List ℚ → List ℚ
  | [] => [x]
  | y :: ys => if x ≥ y then x :: y :: ys else y :: insertDesc x ys

/-- Sort a list of percentages in descending order. -/
def sortDesc : List ℚ → List ℚ
  | [] => []
  | x :: xs => insertDesc x (sortDesc xs)

/-- `calculateConcentrationMetrics`: top-holder percentage and combined
top-10 percentage of a holder distribution (both `0` for an empty list). -/
def calculateConcentrationMetrics (holders : List TokenHolder) : ℚ × ℚ :=
  match holders with
  | [] => (0, 0)
  | _ =>
    let sorted := sortDesc (holders.map (·.percentage))
    (sorted.headD 0, (sorted.take 10).sum)

/-- Per-pattern penalty: High 20, Medium 10, Low 5. -/
def securityPatternPenalty (p : SecurityPattern) : ℚ :=
  match p.severity with
  | .High => 20
  | .Medium => 10
  | .Low => 5

/-- `calculateBlockchainRiskScore`: additive-from-zero penalties, capped at
100 by `Math.min`. -/
def calculateBlockchainRiskScore
    (isVerified : Bool)
    (contractInfo : ContractInfo)
    (tokenInfo : TokenInfo)
    (holderDistribution : List TokenHolder)
    (securityPatterns : List SecurityPattern) : ℚ :=
  let score : ℚ :=
    (if !isVerified then 50 else 0) +
    (if contractInfo.hasImplementation then 20 else 0) +
    (if !tokenInfo.hasName || !tokenInfo.hasSymbol then 10 else 0) +
    (match contractInfo.ageInDays with
      | some ageInDays =>
        if ageInDays < 7 then 20
        else if ageInDays < 30 then 10
        else if ageInDays < 90 then 5
        else 0
      | none => 5) +
    (let m := calculateConcentrationMetrics holderDistribution
     (if m.1 > 50 then 30 else if m.1 > 20 then 15 else if m.1 > 10 then 5 else 0) +
     (if m.2 > 90 then 20 else if m.2 > 80 then 10 else if m.2 > 70 then 5 else 0)) +
    (securityPatterns.map securityPatternPenalty).sum
  min 100 score

/-- Risk-level ternary of the `assessBlockchainRisk` capability:
`riskScore >= 70 ? 'High' : riskScore >= 40 ? 'Medium' : 'Low'`. -/
def blockchainRiskLevelOf (s : ℚ) : RiskLevel :=
  if s ≥ 70 then .High else if s ≥ 40 then .Medium else .Low

/-! ## Market scorer (`calculateMarketRiskAssessment`)

The scoring block of `calculateMarketRiskAssessment` consumes the
CoinGecko record and the volatility figure (`calculatePriceVolatility` of
the price series, a standard deviation; it enters the score only through
threshold comparisons and is taken here as an input). -/

/-- The CoinGecko fields entering the market risk score. -/
structure CoinData where
  market_cap : ℚ
  market_cap_rank : ℚ
  total_volume : ℚ
  ath_change_percentage : ℚ
  deriving Repr, DecidableEq

/-- The market risk score: additive-from-fifty tier adjustments, clamped
to [0, 100] by `Math.max(0, Math.min(100, riskScore))`. -/
def calculateMarketRiskScore (coinData : CoinData) (volatilityScore : ℚ) : ℚ :=
  let volumeToMarketCapRatio := coinData.total_volume / coinData.market_cap
  let riskScore : ℚ := 50 +
    (if coinData.market_cap > 10000000000 then -15
     else if coinData.market_cap > 1000000000 then -10
     else if coinData.market_cap < 10000000 then 15
     else if coinData.market_cap < 100000000 then 5
     else 0) +
    (if coinData.market_cap_rank ≤ 10 then -15
     else if coinData.market_cap_rank ≤ 50 then -10
     else if coinData.market_cap_rank ≤ 100 then -5
     else if coinData.market_cap_rank > 500 then 10
     else if coinData.market_cap_rank > 1000 then 15
     else 0) +
    (if volumeToMarketCapRatio > 2/10 then -10
     else if volumeToMarketCapRatio > 1/10 then -5
     else if volumeToMarketCapRatio < 2/100 then 15
     else if volumeToMarketCapRatio < 5/100 then 5
     else 0) +
    (if volatilityScore > 1/10 then 15
     else if volatilityScore > 5/100 then 5
     else if volatilityScore < 2/100 then -5
     else 0) +
    (if coinData.ath_change_percentage > -20 then -5
     else if coinData.ath_change_percentage < -80 then 5
     else 0)
  max 0 (min 100 riskScore)

/-- Risk-level bucketing of the market scorer: default `Medium`, `< 40`
gives `Low`, `> 70` gives `High`. -/
def marketRiskLevelOf (s : ℚ) : RiskLevel :=
  if s < 40 then .Low else if s > 70 then .High else .Medium

/-! ## DEX scorer (`calculateDexRiskAssessment`, dexscreener agent)

A `TokenPair` carries the fields of the DexScreener record that enter the
assessment; optional fields mirror the source's `pair.liquidity?.usd || 0`
style accesses.  Message strings that the source builds with
`formatNumber`/`toFixed` are rendered with `toString`; no theorem depends
on that rendering. -/

/-- 24h transaction counts of a pair (`pair.txns.h24`). -/
structure PairTxns where
  buys : ℕ
  sells : ℕ
  deriving Repr, DecidableEq

/-- One DexScreener trading pair (the fields entering the assessment). -/
structure TokenPair where
  dexId : String
  liquidityUsd : Option ℚ
  volumeH24 : Option ℚ
  txnsH24 : Option PairTxns
  priceChangeH24 : Option ℚ
  deriving Repr, DecidableEq

/-- The result of `calculateDexRiskAssessment` (numeric and factor
fields). -/
structure DexRiskAssessment where
  liquidity : ℚ
  volume24h : ℚ
  buyToSellRatio : ℚ
  priceChange24h : ℚ
  riskScore : ℚ
  riskLevel : RiskLevel
  liquidityScore : ℚ
  liquidityLevel : RiskLevel
  redFlags : List String
  positiveIndicators : List String
  deriving Repr, DecidableEq

/-- Liquidity-tier sub-score of the DEX scorer (six tiers). -/
def dexLiquidityScore (totalLiquidity : ℚ) : ℚ :=
  if totalLiquidity < 10000 then 90
  else if totalLiquidity < 50000 then 70
  else if totalLiquidity < 100000 then 60
  else if totalLiquidity < 500000 then 50
  else if totalLiquidity < 1000000 then 30
  else 10

/-- Liquidity level attached to each liquidity tier. -/
def dexLiquidityLevel (totalLiquidity : ℚ) : RiskLevel :=
  if totalLiquidity < 10000 then .Low
  else if totalLiquidity < 50000 then .Low
  else if totalLiquidity < 100000 then .Low
  else if totalLiquidity < 500000 then .Medium
  else if totalLiquidity < 1000000 then .Medium
  else .High

/-- Volume adjustment of the DEX risk score. -/
def dexVolumeFactor (totalVolume24h : ℚ) : ℚ :=
  if totalVolume24h < 1000 then 20
  else if totalVolume24h < 10000 then 10
  else if totalVolume24h > 1000000 then -10
  else 0

/-- Buy/sell-ratio adjustment of the DEX risk score. -/
def dexBuySellFactor (buyToSellRatio : ℚ) : ℚ :=
  if buyToSellRatio < 1/2 then 15
  else if buyToSellRatio > 2 then -10
  else 0

/-- Price-change adjustment of the DEX risk score. -/
def dexPriceChangeFactor (priceChange24h : ℚ) : ℚ :=
  if priceChange24h < -20 then 10
  else if priceChange24h > 50 then 15
  else 0

/-- Venue-diversity adjustment of the DEX risk score. -/
def dexVenueFactor (uniqueDexes : ℕ) : ℚ :=
  if uniqueDexes > 3 then -10 else 0

/-- Risk-level bucketing of the DEX scorer: default `Medium`, `< 40`
gives `Low`, `> 70` gives `High`. -/
def dexRiskLevelOf (s : ℚ) : RiskLevel :=
  if s < 40 then .Low else if s > 70 then .High else .Medium

/-- `calculateDexRiskAssessment`: liquidity/volume totals over all pairs,
buy/sell ratio of the primary pair, base-50 score with the tier
adjustments above, clamped to [0, 100]. -/
def calculateDexRiskAssessment
    (primaryPair : TokenPair) (allPairs : List TokenPair) : DexRiskAssessment :=
  let totalLiquidity : ℚ := (allPairs.map (fun p => p.liquidityUsd.getD 0)).sum
  let totalVolume24h : ℚ := (allPairs.map (fun p => p.volumeH24.getD 0)).sum
  let totalBuys : ℕ := (primaryPair.txnsH24.map (·.buys)).getD 0
  let totalSells : ℕ := (primaryPair.txnsH24.map (·.sells)).getD 0
  let buyToSellRatio : ℚ :=
    if totalSells > 0 then (totalBuys : ℚ) / (totalSells : ℚ)
    else if totalBuys > 0 then 2 else 1
  let priceChange24h : ℚ := primaryPair.priceChangeH24.getD 0
  let volumeToLiquidityRatio : ℚ :=
    if totalLiquidity > 0 then totalVolume24h / totalLiquidity else 0
  let uniqueDexes : ℕ := (allPairs.map (·.dexId)).dedup.length
  let redFlags : List String :=
    (if totalLiquidity < 10000 then
      ["Extremely low liquidity (<$10K) creates high vulnerability to price manipulation"]
     else if totalLiquidity < 50000 then
      ["Very low liquidity (<$50K) suggests high risk of price manipulation"]
     else if totalLiquidity < 100000 then
      ["Low liquidity (<$100K) may lead to high price impact on trades"]
     else if totalLiquidity < 500000 then
      ["Moderate liquidity (<$500K) means larger trades will have notable price impact"]
     else []) ++
    (if totalVolume24h < 1000 then
      ["Extremely low trading volume (<$1K) indicates limited market interest"]
     else if totalVolume24h < 10000 then
      ["Very low trading volume (<$10K) suggests limited market activity"]
     else []) ++
    (if volumeToLiquidityRatio < 5/100 then
      ["Very low volume-to-liquidity ratio indicates stagnant trading"]
     else []) ++
    (if buyToSellRatio < 1/2 then
      ["Significantly more sells than buys in the last 24 hours"]
     else []) ++
    (if priceChange24h < -20 then
      ["Sharp price decrease of " ++ toString priceChange24h ++ "% in the last 24 hours"]
     else if priceChange24h > 50 then
      ["Suspicious price increase of +" ++ toString priceChange24h ++ "% in the last 24 hours"]
     else [])
  let positiveIndicators : List String :=
    (if totalLiquidity < 10000 ∨ totalLiquidity < 50000 ∨ totalLiquidity < 100000 ∨
        totalLiquidity < 500000 ∨ totalLiquidity < 1000000 then []
     else
      ["Strong liquidity of $" ++ toString totalLiquidity ++ " reduces price impact risk"]) ++
    (if totalVolume24h < 1000 ∨ totalVolume24h < 10000 then []
     else if totalVolume24h > 1000000 then
      ["High trading volume of $" ++ toString totalVolume24h ++ " indicates strong market interest"]
     else []) ++
    (if ¬ (volumeToLiquidityRatio < 5/100) ∧ volumeToLiquidityRatio > 1 then
      ["Healthy volume-to-liquidity ratio indicates active trading"]
     else []) ++
    (if ¬ (buyToSellRatio < 1/2) ∧ buyToSellRatio > 2 then
      ["More buys than sells in the last 24 hours"]
     else []) ++
    (if ¬ (priceChange24h < -20) ∧ ¬ (priceChange24h > 50) ∧
        priceChange24h > 10 ∧ priceChange24h < 50 then
      ["Positive price movement of +" ++ toString priceChange24h ++ "% in the last 24 hours"]
     else []) ++
    (if uniqueDexes > 3 then
      ["Listed on " ++ toString uniqueDexes ++ " different DEXes, suggesting wider adoption"]
     else [])
  let riskScore : ℚ :=
    max 0 (min 100
      (50 + dexLiquidityScore totalLiquidity + dexVolumeFactor totalVolume24h +
        dexBuySellFactor buyToSellRatio + dexPriceChangeFactor priceChange24h +
        dexVenueFactor uniqueDexes))
  { liquidity := totalLiquidity
    volume24h := totalVolume24h
    buyToSellRatio := buyToSellRatio
    priceChange24h := priceChange24h
    riskScore := riskScore
    riskLevel := dexRiskLevelOf riskScore
    liquidityScore := dexLiquidityScore totalLiquidity
    liquidityLevel := dexLiquidityLevel totalLiquidity
    redFlags := redFlags
    positiveIndicators := positiveIndicators }

/-! ## Social scorer (`calculateTwitterRiskAssessment`, `social-agent.ts`) -/

/-- `public_metrics` of a tweet (the counts entering the engagement
rate). -/
structure PublicMetrics where
  like_count : ℕ
  retweet_count : ℕ
  reply_count : ℕ
  deriving Repr, DecidableEq

/-- Per-tweet sentiment category. -/
inductive TweetSentiment where
  | positive
  | neutral
  | negative
  deriving DecidableEq, Repr

/-- One analyzed tweet (`TwitterSentimentAnalysis`). -/
structure TwitterSentimentAnalysis where
  sentimentScore : ℚ
  sentiment : TweetSentiment
  metrics : PublicMetrics
  deriving Repr, DecidableEq

/-- The Twitter user record fields entering the assessment. -/
structure TwitterUser where
  verified : Bool
  followers_count : ℕ
  deriving Repr, DecidableEq

/-- The rounded percentage breakdown of tweet sentiments. -/
structure SentimentBreakdown where
  positive : ℤ
  neutral : ℤ
  negative : ℤ
  deriving Repr, DecidableEq

/-- The result of `calculateTwitterRiskAssessment` (numeric and factor
fields). -/
structure TwitterRiskAssessment where
  overallSentiment : TweetSentiment
  overallSentimentScore : ℚ
  riskScore : ℤ
  riskLevel : RiskLevel
  redFlags : List String
  positiveIndicators : List String
  tweetCount : ℕ
  engagementRate : ℚ
  sentimentBreakdown : SentimentBreakdown
  deriving Repr, DecidableEq

/-- Risk-level bucketing of the social scorer, written as in the source:
start from `Medium`, reassign to `Low` when `< 40`, then to `High` when
`> 70`. -/
def socialRiskLevelOf (s : ℤ) : RiskLevel :=
  let l := RiskLevel.Medium
  let l := if s < 40 then RiskLevel.Low else l
  if s > 70 then RiskLevel.High else l

/-- `calculateTwitterRiskAssessment`: neutral default for an empty tweet
list, otherwise the linear inversion of the average sentiment plus the
threshold-based factor flags. -/
def calculateTwitterRiskAssessment
    (tweetSentiments : List TwitterSentimentAnalysis)
    (userInfo : Option TwitterUser) : TwitterRiskAssessment :=
  match tweetSentiments with
  | [] =>
    { overallSentiment := .neutral
      overallSentimentScore := 0
      riskScore := 50
      riskLevel := .Medium
      redFlags := ["No recent Twitter activity found"]
      positiveIndicators := []
      tweetCount := 0
      engagementRate := 0
      sentimentBreakdown := { positive := 0, neutral := 100, negative := 0 } }
  | _ :: _ =>
    let totalSentimentScore : ℚ :=
      tweetSentiments.foldl (fun sum item => sum + item.sentimentScore) 0
    let overallSentimentScore : ℚ := totalSentimentScore / tweetSentiments.length
    let overallSentiment : TweetSentiment :=
      if overallSentimentScore < -1/10 then .negative
      else if overallSentimentScore > 1/10 then .positive
      else .neutral
    let riskScore : ℤ := jsRound ((1 - overallSentimentScore) / 2 * 100)
    let positiveTweets : ℕ :=
      (tweetSentiments.filter (fun t => t.sentiment = .positive)).length
    let negativeTweets : ℕ :=
      (tweetSentiments.filter (fun t => t.sentiment = .negative)).length
    let neutralTweets : ℤ :=
      (tweetSentiments.length : ℤ) - positiveTweets - negativeTweets
    let sentimentBreakdown : SentimentBreakdown :=
      { positive := jsRound ((positiveTweets : ℚ) / tweetSentiments.length * 100)
        neutral := jsRound ((neutralTweets : ℚ) / tweetSentiments.length * 100)
        negative := jsRound ((negativeTweets : ℚ) / tweetSentiments.length * 100) }
    let totalLikes : ℕ :=
      (tweetSentiments.map (fun t => t.metrics.like_count)).sum
    let totalRetweets : ℕ :=
      (tweetSentiments.map (fun t => t.metrics.retweet_count)).sum
    let totalReplies : ℕ :=
      (tweetSentiments.map (fun t => t.metrics.reply_count)).sum
    let engagementRate : ℚ :=
      if tweetSentiments.length > 0 then
        ((totalLikes : ℚ) + totalRetweets + totalReplies) / tweetSentiments.length
      else 0
    let redFlags : List String :=
      (if sentimentBreakdown.negative > 50 then
        ["Majority negative sentiment on Twitter"] else []) ++
      (if tweetSentiments.length < 10 then
        ["Very low Twitter discussion volume"] else []) ++
      (if engagementRate < 1 then
        ["Low engagement with tweets about this project"] else []) ++
      (match userInfo with
        | some u => if !u.verified then
            ["Official Twitter account is not verified"] else []
        | none => []) ++
      (match userInfo with
        | some u => if u.followers_count < 1000 then
            ["Official account has very few followers"] else []
        | none => [])
    let positiveIndicators : List String :=
      (if sentimentBreakdown.positive > 60 then
        ["Strong positive sentiment on Twitter"] else []) ++
      (if tweetSentiments.length > 50 then
        ["High volume of Twitter discussion"] else []) ++
      (if engagementRate > 10 then
        ["High engagement with tweets about this project"] else []) ++
      (match userInfo with
        | some u => if u.verified then
            ["Project has a verified official Twitter account"] else []
        | none => []) ++
      (match userInfo with
        | some u => if u.followers_count > 100000 then
            ["Official account has a large follower base"] else []
        | none => [])
    { overallSentiment := overallSentiment
      overallSentimentScore := overallSentimentScore
      riskScore := riskScore
      riskLevel := socialRiskLevelOf riskScore
      redFlags := redFlags
      positiveIndicators := positiveIndicators
      tweetCount := tweetSentiments.length
      engagementRate := engagementRate
      sentimentBreakdown := sentimentBreakdown }

/-! ## Trading-pattern metrics of the DexScreener agent

The repository's test suite (`tests/dexscreener/dexscreener-agent.test.ts`)
exercises a method `assessTradingPatterns` returning `buySellRatio`,
`volumePerTx` and a `suspicious` flag; the file defining it is not in the
source tree, so the computation is modelled from the specification. -/

/-- The derived trading-pattern metrics. -/
structure TradingPatterns where
  buySellRatio : ℚ
  volumePerTx : ℚ
  suspicious : Bool
  deriving Repr, DecidableEq

/-- Modelled from the spec: `assessTradingPatterns` of the DexScreener
agent is missing from the source tree (only its unit tests remain).  Per
§4.4: `buySellRatio = buys / sells` (if `sells = 0`, the ratio is `2` when
`buys > 0`, else `1`); `volumePerTx = volume / (buys + sells)`; the
pairing is flagged `suspicious` when the ratio is at least `10` or at most
`0.1`. -/
def assessTradingPatterns (buys sells : ℕ) (volume : ℚ) : TradingPatterns :=
  let buySellRatio : ℚ :=
    if sells > 0 then (buys : ℚ) / (sells : ℚ)
    else if buys > 0 then 2 else 1
  { buySellRatio := buySellRatio
    volumePerTx := volume / ((buys : ℚ) + (sells : ℚ))
    suspicious := if buySellRatio ≥ 10 ∨ buySellRatio ≤ 1/10 then true else false }

/-- The bucketing convention the specification fixes as canonical:
`< 40` Low, `40 ≤ s ≤ 70` Medium, `> 70` High. -/
def specRiskBucket (s : ℚ) : RiskLevel :=
  if s < 40 then .Low else if s ≤ 70 then .Medium else .High

/-! ## Concrete inputs used by the closed theorems below -/

/-- A blockchain signal with score 80 and no factor strings. -/
def bd80 : BlockchainRiskData :=
  { riskScore := 80, riskLevel := .High, riskFactors := [] }

/-- A social signal with sentiment score 0.123. -/
def sd123 : SocialRiskData :=
  { sentimentScore := 123/1000, riskLevel := .Medium,
    riskFactors := [], positiveFactors := [] }

/-- The trading pair of the spec's buy/sell imbalance example:
100 buys, 10 sells, $100,000 volume in 24h. -/
def imbalancedPair : TokenPair :=
  { dexId := "uniswap", liquidityUsd := some 1000000,
    volumeH24 := some 100000, txnsH24 := some { buys := 100, sells := 10 },
    priceChangeH24 := some (52/10) }

/-! ## Helper lemmas -/

/-- `jsRound` is the identity on integers. -/
theorem jsRound_intCast (n : ℤ) : jsRound (n : ℚ) = n := by
  unfold jsRound
  rw [Int.floor_int_add]
  norm_num

/-- The aggregation engine's overall score is the renormalized weighted
mean of the present signals whenever at least one is present. -/
theorem overall_eq_weighted_mean
    (b : Option BlockchainRiskData) (s : Option SocialRiskData)
    (m : Option MarketRiskData) (d : Option DexRiskData)
    (h : b.isSome ∨ s.isSome ∨ m.isSome ∨ d.isSome) :
    (calculateComprehensiveRisk b s m d).overallRiskScore =
      jsRound (aggNumerator b s m d / aggDenominator b s m d) := by
  rcases b with _ | b <;> rcases s with _ | s <;>
    rcases m with _ | m <;> rcases d with _ | d <;>
    simp only [calculateComprehensiveRisk, aggNumerator, aggDenominator,
      Option.isSome_none, Option.isSome_some] at h ⊢ <;>
    first
      | exact absurd h (by decide)
      | norm_num

/-! ## Claim theorems -/

/-- C1: for every evaluation in which at least one category signal is
present, the aggregation engine returns
`overallScore = round(Σ_{c∈present} weight[c]·score[c] / Σ_{c∈present} weight[c])`
with the fixed weights blockchain 0.35, social 0.20, market 0.25,
dex 0.20; absent categories contribute to neither the numerator nor the
denominator. -/
theorem overallScore_renormalized_weighted_mean
    (b : Option BlockchainRiskData) (s : Option SocialRiskData)
    (m : Option MarketRiskData) (d : Option DexRiskData)
    (h : b.isSome ∨ s.isSome ∨ m.isSome ∨ d.isSome) :
    (calculateComprehensiveRisk b s m d).overallRiskScore =
      jsRound (aggNumerator b s m d / aggDenominator b s m d) :=
  overall_eq_weighted_mean b s m d h

/-- Witness for C1: with only the blockchain signal (score 80) present,
the renormalized weighted mean gives overall score 80. -/
theorem overallScore_renormalized_weighted_mean_witness :
    (calculateComprehensiveRisk (some bd80) none none none).overallRiskScore = 80 := by
  have h := overallScore_renormalized_weighted_mean (some bd80) none none none
    (Or.inl rfl)
  rw [h]
  norm_num [aggNumerator, aggDenominator, bd80, jsRound]

/-- C2 counterexample: with only the blockchain signal present, the
returned breakdown carries the absent categories with value 0 — they are
not omitted (the `riskBreakdown` record always contains all four
categories, initialized to 0). -/
theorem absent_categories_appear_as_zero :
    (calculateComprehensiveRisk (some bd80) none none none).riskBreakdown.social = 0 ∧
    (calculateComprehensiveRisk (some bd80) none none none).riskBreakdown.market = 0 ∧
    (calculateComprehensiveRisk (some bd80) none none none).riskBreakdown.dex = 0 := by
  simp [calculateComprehensiveRisk]

/-- C2 amended: an absent category stays at its initialized value 0 in
`riskBreakdown` (it is not omitted), its optional per-category detail
component is omitted (`none`), and the overall score's denominator
excludes the absent category's weight (renormalized weighted mean over
the present categories only). -/
theorem breakdown_absent_category_semantics
    (b : Option BlockchainRiskData) (s : Option SocialRiskData)
    (m : Option MarketRiskData) (d : Option DexRiskData) :
    (b = none → (calculateComprehensiveRisk b s m d).riskBreakdown.blockchain = 0 ∧
      (calculateComprehensiveRisk b s m d).blockchainRisk = none) ∧
    (s = none → (calculateComprehensiveRisk b s m d).riskBreakdown.social = 0 ∧
      (calculateComprehensiveRisk b s m d).socialRisk = none) ∧
    (m = none → (calculateComprehensiveRisk b s m d).riskBreakdown.market = 0 ∧
      (calculateComprehensiveRisk b s m d).marketRisk = none) ∧
    (d = none → (calculateComprehensiveRisk b s m d).riskBreakdown.dex = 0 ∧
      (calculateComprehensiveRisk b s m d).dexRisk = none) ∧
    ((b.isSome ∨ s.isSome ∨ m.isSome ∨ d.isSome) →
      (calculateComprehensiveRisk b s m d).overallRiskScore =
        jsRound (aggNumerator b s m d / aggDenominator b s m d)) := by
  refine ⟨?_, ?_, ?_, ?_, fun h => overall_eq_weighted_mean b s m d h⟩ <;>
    rintro rfl <;> simp [calculateComprehensiveRisk]

/-- Witness for C2 amended: with the market signal absent, the breakdown
carries market as 0 and the market detail component is omitted. -/
theorem breakdown_absent_category_semantics_witness :
    (calculateComprehensiveRisk (some bd80) none none none).riskBreakdown.market = 0 ∧
    (calculateComprehensiveRisk (some bd80) none none none).marketRisk = none :=
  (breakdown_absent_category_semantics (some bd80) none none none).2.2.1 rfl

/-- C3 counterexample: with zero signals present the aggregation engine
returns an empty factor list — there is no single explanatory
"insufficient data" factor (and the breakdown is the all-zero record,
not an empty one). -/
theorem zero_signals_no_explanatory_factor :
    (calculateComprehensiveRisk none none none none).riskFactors = [] ∧
    (calculateComprehensiveRisk none none none none).riskFactors.length ≠ 1 := by
  simp [calculateComprehensiveRisk]

/-- C3 amended: with zero signals present the aggregation engine returns
overall score 50 and level Medium, but its breakdown contains all four
categories with value 0 and both factor lists are empty — no explanatory
factor is emitted.  (At the caller, `performRiskAnalysis` never reaches
the aggregation in this case: it aborts with an error message.) -/
theorem zero_signals_neutral_default :
    (calculateComprehensiveRisk none none none none).overallRiskScore = 50 ∧
    (calculateComprehensiveRisk none none none none).overallRiskLevel = .Medium ∧
    (calculateComprehensiveRisk none none none none).riskBreakdown =
      { blockchain := 0, social := 0, market := 0, dex := 0 } ∧
    (calculateComprehensiveRisk none none none none).riskFactors = [] ∧
    (calculateComprehensiveRisk none none none none).positiveFactors = [] := by
  norm_num [calculateComprehensiveRisk, overallRiskLevelOf]

/-- C4 counterexample: the blockchain scorer maps score 70 to High, not
Medium — its level ternary uses `>= 70`, unlike the other scorers.  A
concrete unverified proxy contract (age 100 days, name and symbol
present, no holders, no findings) scores exactly 70 and is labelled
High. -/
theorem blockchain_level_at_seventy_is_high :
    calculateBlockchainRiskScore false
      { hasImplementation := true, ageInDays := some 100 }
      { hasName := true, hasSymbol := true } [] [] = 70 ∧
    blockchainRiskLevelOf 70 = .High ∧ RiskLevel.High ≠ .Medium := by
  refine ⟨?_, ?_, by decide⟩
  · norm_num [calculateBlockchainRiskScore, calculateConcentrationMetrics]
  · norm_num [blockchainRiskLevelOf]

/-- C4 amended: the market, DEX, social and aggregation level functions
all realize the canonical bucketing (`< 40` Low, `40..70` Medium, `> 70`
High; in particular 70 gives Medium and 71 gives High), but the
blockchain scorer diverges: it maps every score of at least 70 — score 70
included — to High. -/
theorem risk_level_bucketing_amended :
    (∀ s : ℚ, marketRiskLevelOf s = specRiskBucket s) ∧
    (∀ s : ℚ, dexRiskLevelOf s = specRiskBucket s) ∧
    (∀ s : ℤ, socialRiskLevelOf s = specRiskBucket (s : ℚ)) ∧
    (∀ s : ℤ, overallRiskLevelOf s = specRiskBucket (s : ℚ)) ∧
    (∀ s : ℚ, 70 ≤ s → blockchainRiskLevelOf s = .High) := by
  refine ⟨?_, ?_, ?_, ?_, ?_⟩
  · intro s
    unfold marketRiskLevelOf specRiskBucket
    split_ifs <;> first | rfl | (exfalso; linarith)
  · intro s
    unfold dexRiskLevelOf specRiskBucket
    split_ifs <;> first | rfl | (exfalso; linarith)
  · intro s
    simp only [socialRiskLevelOf, specRiskBucket]
    split_ifs <;>
      first
        | rfl
        | (exfalso; norm_cast at *; try omega)
  · intro s
    simp only [overallRiskLevelOf, specRiskBucket]
    split_ifs <;>
      first
        | rfl
        | (exfalso; norm_cast at *; try omega)
  · intro s h
    unfold blockchainRiskLevelOf
    rw [if_pos h]

/-- Witness for C4 amended: the market scorer labels 70 Medium, the
blockchain scorer labels 70 High. -/
theorem risk_level_bucketing_amended_witness :
    marketRiskLevelOf 70 = RiskLevel.Medium ∧
    blockchainRiskLevelOf 70 = RiskLevel.High :=
  ⟨(risk_level_bucketing_amended.1 70).trans (by norm_num [specRiskBucket]),
   risk_level_bucketing_amended.2.2.2.2 70 (by norm_num)⟩

/-- C5 counterexample: an unverified contract with empty holder list and
no findings but an absent creation timestamp scores 55 (the unknown-age
tier adds 5), not 50. -/
theorem unverified_unknown_age_score_55 :
    calculateBlockchainRiskScore false
      { hasImplementation := false, ageInDays := none }
      { hasName := true, hasSymbol := true } [] [] = 55 ∧ (55 : ℚ) ≠ 50 := by
  constructor
  · norm_num [calculateBlockchainRiskScore, calculateConcentrationMetrics]
  · norm_num

/-- C5 amended: an unverified contract with empty holder list and no
findings scores exactly 50 provided the remaining penalty sources are
neutral: not a proxy, name and symbol present, and a known contract age
of at least 90 days. -/
theorem unverified_isolated_penalty_score_50
    (ageInDays : ℤ) (h : 90 ≤ ageInDays) :
    calculateBlockchainRiskScore false
      { hasImplementation := false, ageInDays := some ageInDays }
      { hasName := true, hasSymbol := true } [] [] = 50 := by
  have h7 : ¬ (ageInDays < 7) := by omega
  have h30 : ¬ (ageInDays < 30) := by omega
  have h90 : ¬ (ageInDays < 90) := by omega
  simp only [calculateBlockchainRiskScore, calculateConcentrationMetrics,
    h7, h30, h90, if_false]
  norm_num

/-- Witness for C5 amended: age 120 days. -/
theorem unverified_isolated_penalty_score_50_witness :
    calculateBlockchainRiskScore false
      { hasImplementation := false, ageInDays := some 120 }
      { hasName := true, hasSymbol := true } [] [] = 50 :=
  unverified_isolated_penalty_score_50 120 (by decide)

/-- C6: at market-cap rank 1500 with every other factor in its neutral
tier, the market risk score is 60 = 50 + 10: the `> 1000` branch that
would add 15 is unreachable because the `> 500` branch is tested first,
so every rank above 500 — above 1000 included — adds 10. -/
theorem market_rank_above_1000_adds_ten :
    calculateMarketRiskScore
      { market_cap := 500000000, market_cap_rank := 1500,
        total_volume := 35000000, ath_change_percentage := -50 } (3/100) = 60 ∧
    (60 : ℚ) ≠ 65 := by
  constructor
  · norm_num [calculateMarketRiskScore]
  · norm_num

/-- C7: for 100 buys, 10 sells and $100,000 volume, the DEX assessment's
`buyToSellRatio` is 10, and the trading-pattern metrics (modelled from
the spec, see `assessTradingPatterns`) give `volumePerTx = 100000/110`
(which rounds to 909.09, i.e. 90909/100) with the suspicious flag set
under the imbalance rule. -/
theorem trading_patterns_imbalance_example :
    (calculateDexRiskAssessment imbalancedPair [imbalancedPair]).buyToSellRatio = 10 ∧
    (assessTradingPatterns 100 10 100000).buySellRatio = 10 ∧
    (assessTradingPatterns 100 10 100000).volumePerTx = 100000 / 110 ∧
    jsRound ((assessTradingPatterns 100 10 100000).volumePerTx * 100) = 90909 ∧
    (assessTradingPatterns 100 10 100000).suspicious = true := by
  refine ⟨?_, ?_, ?_, ?_, ?_⟩ <;>
    norm_num [calculateDexRiskAssessment, assessTradingPatterns, imbalancedPair,
      jsRound]

/-- The source's left fold accumulating sentiment scores equals the
initial value plus the list sum. -/
theorem foldl_add_sentiment (l : List TwitterSentimentAnalysis) (a : ℚ) :
    l.foldl (fun sum item => sum + item.sentimentScore) a =
      a + (l.map (fun t => t.sentimentScore)).sum := by
  induction l generalizing a with
  | nil => simp
  | cons x xs ih => simp [ih, add_assoc]

/-- C8: for a nonempty tweet list the social risk score is the linear
inversion `round(((1 - s) / 2) * 100)` of the average sentiment `s`; with
no social data at all the scorer returns score 50, level Medium, and the
single factor noting the absence of activity. -/
theorem sentiment_linear_inversion :
    (∀ (ts : List TwitterSentimentAnalysis) (u : Option TwitterUser), ts ≠ [] →
      (calculateTwitterRiskAssessment ts u).riskScore =
        jsRound ((1 - (ts.map (fun t => t.sentimentScore)).sum / ts.length) / 2 * 100)) ∧
    (∀ u : Option TwitterUser,
      (calculateTwitterRiskAssessment [] u).riskScore = 50 ∧
      (calculateTwitterRiskAssessment [] u).riskLevel = .Medium ∧
      (calculateTwitterRiskAssessment [] u).redFlags =
        ["No recent Twitter activity found"]) := by
  constructor
  · intro ts u h
    match ts with
    | [] => exact absurd rfl h
    | x :: xs =>
      simp only [calculateTwitterRiskAssessment]
      rw [foldl_add_sentiment]
      norm_num
  · intro u
    simp [calculateTwitterRiskAssessment]

/-- Witness for C8: one tweet with sentiment 0.5 gives risk score 25. -/
theorem sentiment_linear_inversion_witness :
    (calculateTwitterRiskAssessment
      [{ sentimentScore := 1/2, sentiment := .positive,
         metrics := { like_count := 0, retweet_count := 0, reply_count := 0 } }]
      none).riskScore = 25 := by
  have h := sentiment_linear_inversion.1
    [{ sentimentScore := 1/2, sentiment := .positive,
       metrics := { like_count := 0, retweet_count := 0, reply_count := 0 } }]
    none (by simp)
  rw [h]
  norm_num [jsRound]

/-- C9 counterexample: with only the social signal present and sentiment
0.123, the breakdown holds the unrounded normalized score 43.85 while the
overall score is its rounding 44 — the overall score does not equal the
signal's score exactly. -/
theorem single_social_signal_not_exact :
    (calculateComprehensiveRisk none (some sd123) none none).riskBreakdown.social =
      877/20 ∧
    (calculateComprehensiveRisk none (some sd123) none none).overallRiskScore = 44 ∧
    ((44 : ℚ) ≠ 877/20) := by
  refine ⟨?_, ?_, by norm_num⟩ <;>
    norm_num [calculateComprehensiveRisk, normalizedSocialScore, sd123, jsRound]

/-- C9 amended: with exactly one signal present the overall score is the
rounding of that signal's effective score, hence equals it exactly
whenever that score is an integer (as the blockchain, market and DEX
scorer outputs always are); a lone social signal yields the rounded
normalized sentiment score. -/
theorem single_signal_weighted_mean_identity :
    (∀ (b : BlockchainRiskData) (n : ℤ), b.riskScore = (n : ℚ) →
      (calculateComprehensiveRisk (some b) none none none).overallRiskScore = n) ∧
    (∀ (m : MarketRiskData) (n : ℤ), m.riskScore = (n : ℚ) →
      (calculateComprehensiveRisk none none (some m) none).overallRiskScore = n) ∧
    (∀ (d : DexRiskData) (n : ℤ), d.dex_risk_score = (n : ℚ) →
      (calculateComprehensiveRisk none none none (some d)).overallRiskScore = n) ∧
    (∀ s : SocialRiskData,
      (calculateComprehensiveRisk none (some s) none none).overallRiskScore =
        jsRound (normalizedSocialScore s.sentimentScore)) := by
  refine ⟨?_, ?_, ?_, ?_⟩
  · intro b n hn
    rw [overall_eq_weighted_mean (some b) none none none (Or.inl rfl),
      (by norm_num [aggNumerator, hn] :
        aggNumerator (some b) none none none = (n : ℚ) * (35/100)),
      (by norm_num [aggDenominator] :
        aggDenominator (some b) none none none = (35:ℚ)/100),
      mul_div_cancel_right₀ _ (by norm_num : ((35:ℚ)/100) ≠ 0)]
    exact jsRound_intCast n
  · intro m n hn
    rw [overall_eq_weighted_mean none none (some m) none
        (Or.inr (Or.inr (Or.inl rfl))),
      (by norm_num [aggNumerator, hn] :
        aggNumerator none none (some m) none = (n : ℚ) * (25/100)),
      (by norm_num [aggDenominator] :
        aggDenominator none none (some m) none = (25:ℚ)/100),
      mul_div_cancel_right₀ _ (by norm_num : ((25:ℚ)/100) ≠ 0)]
    exact jsRound_intCast n
  · intro d n hn
    rw [overall_eq_weighted_mean none none none (some d)
        (Or.inr (Or.inr (Or.inr rfl))),
      (by norm_num [aggNumerator, hn] :
        aggNumerator none none none (some d) = (n : ℚ) * (2/10)),
      (by norm_num [aggDenominator] :
        aggDenominator none none none (some d) = (2:ℚ)/10),
      mul_div_cancel_right₀ _ (by norm_num : ((2:ℚ)/10) ≠ 0)]
    exact jsRound_intCast n
  · intro s
    rw [overall_eq_weighted_mean none (some s) none none (Or.inr (Or.inl rfl)),
      (by norm_num [aggNumerator] :
        aggNumerator none (some s) none none =
          normalizedSocialScore s.sentimentScore * (2/10)),
      (by norm_num [aggDenominator] :
        aggDenominator none (some s) none none = (2:ℚ)/10),
      mul_div_cancel_right₀ _ (by norm_num : ((2:ℚ)/10) ≠ 0)]

/-- Witness for C9 amended: a lone market signal with integer score 63
aggregates to overall score 63. -/
theorem single_signal_weighted_mean_identity_witness :
    (calculateComprehensiveRisk none none
      (some { riskScore := 63, riskLevel := .Medium,
              riskFactors := [], positiveFactors := [] })
      none).overallRiskScore = 63 :=
  single_signal_weighted_mean_identity.2.1
    { riskScore := 63, riskLevel := .Medium,
      riskFactors := [], positiveFactors := [] } 63 (by norm_num)

/-- The liquidity-tier sub-score is at least 10 on every input. -/
theorem dexLiquidityScore_lower (t : ℚ) : 10 ≤ dexLiquidityScore t := by
  unfold dexLiquidityScore
  split_ifs <;> norm_num

/-- The volume factor subtracts at most 10. -/
theorem dexVolumeFactor_lower (v : ℚ) : -10 ≤ dexVolumeFactor v := by
  unfold dexVolumeFactor
  split_ifs <;> norm_num

/-- The buy/sell-ratio factor subtracts at most 10. -/
theorem dexBuySellFactor_lower (r : ℚ) : -10 ≤ dexBuySellFactor r := by
  unfold dexBuySellFactor
  split_ifs <;> norm_num

/-- The price-change factor never subtracts. -/
theorem dexPriceChangeFactor_lower (p : ℚ) : 0 ≤ dexPriceChangeFactor p := by
  unfold dexPriceChangeFactor
  split_ifs <;> norm_num

/-- The venue-diversity factor subtracts at most 10. -/
theorem dexVenueFactor_lower (n : ℕ) : -10 ≤ dexVenueFactor n := by
  unfold dexVenueFactor
  split_ifs <;> norm_num

/-- The clamped base-50 DEX total is at least 30 for any factor inputs. -/
theorem dex_factors_lower (tl tv r pc : ℚ) (ud : ℕ) :
    30 ≤ max 0 (min 100
      (50 + dexLiquidityScore tl + dexVolumeFactor tv + dexBuySellFactor r +
        dexPriceChangeFactor pc + dexVenueFactor ud)) := by
  have h1 := dexLiquidityScore_lower tl
  have h2 := dexVolumeFactor_lower tv
  have h3 := dexBuySellFactor_lower r
  have h4 := dexPriceChangeFactor_lower pc
  have h5 := dexVenueFactor_lower ud
  refine le_trans (le_min (by norm_num) (by linarith)) (le_max_right 0 _)

/-- C10: for every primary pair and pair list, the DEX risk score is at
least 30: the base 50 plus a liquidity sub-score of at least 10 can lose
at most 30 in total, so the lower clamp at 0 is never reached. -/
theorem dex_score_lower_bound (primaryPair : TokenPair) (allPairs : List TokenPair) :
    30 ≤ (calculateDexRiskAssessment primaryPair allPairs).riskScore := by
  simp only [calculateDexRiskAssessment]
  exact dex_factors_lower _ _ _ _ _
